import Mathlib

/-!
Verification of the adapter / argument-marshaling / launch-configuration core
of the gpu-kernel-runner repository (src/kernel_adapter.hpp), as a shallow
embedding in Lean 4.

The repository's `kernel_adapter.hpp` is embedded directly; supporting types
declared in headers absent from the sources (`common_types.hpp`,
`execution_context.hpp`, `launch_configuration.hpp`) are modelled from the
specification, and each such definition says so in its doc comment.
-/

/-- The two execution ecosystems (`execution_ecosystem_t` in `common_types.hpp`,
which is absent from the sources). Modelled from the spec: one of two tags,
EcosystemA = CUDA, EcosystemB = OpenCL. -/
inductive execution_ecosystem_t where
  | cuda
  | opencl
deriving DecidableEq, Repr

/-- Buffer parameter directions (`parameter_direction_t` in `common_types.hpp`,
absent from the sources). Modelled from the spec: one of In, Out, InOut.
`in` is a Lean keyword, hence `inDir` etc. -/
inductive parameter_direction_t where
  | inDir
  | outDir
  | inoutDir
deriving DecidableEq, Repr

/-- A device-side buffer handle. The concrete handle types (`cuda` /
`opencl` members used in `push_back_buffer`) live in headers absent from the
sources; modelled from the spec as an opaque per-allocation identity. -/
structure device_buffer_t where
  id : Nat
deriving DecidableEq, Repr

/-- The small universe of scalar argument types with which adapters
instantiate `push_back_scalar<Scalar>`. The concrete set of C++ scalar types
is open-ended; we model a representative universe with byte sizes. -/
inductive scalar_type where
  | i32
  | u32
  | i64
  | u64
  | f32repr
  | f64repr
deriving DecidableEq, Repr

/-- `sizeof(Scalar)` for each modelled scalar type. -/
def scalar_type.size : scalar_type → Nat
  | .i32 => 4
  | .u32 => 4
  | .i64 => 8
  | .u64 => 8
  | .f32repr => 4
  | .f64repr => 8

/-- A type-erased scalar value (`any` from `util/optional_and_any.hpp`, absent
from the sources). Modelled from the spec: a tagged value whose dynamic type
tag is validated at extraction (`any_cast`). The payload is an opaque bit
pattern. -/
structure any_value where
  type : scalar_type
  raw : Nat
deriving DecidableEq, Repr

/-- An opaque argument address as appended by the marshaling helpers: the
address of a device buffer handle's data (CUDA), of the OpenCL handle object,
or of a stored scalar value. -/
inductive kernel_arg_ptr where
  | cuda_buffer_data (buf : device_buffer_t)
  | opencl_buffer (buf : device_buffer_t)
  | scalar_addr (name : String) (value : any_value)
deriving DecidableEq, Repr

/-- `marshalled_arguments_type` (declared in `common_types.hpp`, absent from
the sources; its shape — a `pointers` sequence and a parallel `sizes`
sequence — is fixed by its uses in `kernel_adapter.hpp`). A pointer slot is
`none` for the null sentinel and `some p` for the address of an argument. -/
structure marshalled_arguments_type where
  pointers : List (Option kernel_arg_ptr)
  sizes : List Nat
deriving DecidableEq, Repr

/-- The device-side buffer maps of the execution context
(`context.buffers.device_side` in `execution_context.hpp`, absent from the
sources). Modelled from the spec: a mapping from buffer name to device handle,
for inputs and for outputs separately; association lists model the maps. -/
structure device_side_buffers_t where
  inputs : List (String × device_buffer_t)
  outputs : List (String × device_buffer_t)
deriving DecidableEq, Repr

/-- The buffers member of the execution context. Modelled from the spec. -/
structure buffers_t where
  device_side : device_side_buffers_t
deriving DecidableEq, Repr

/-- The scalar-argument member of the execution context
(`context.scalar_input_arguments.typed`). Modelled from the spec: a mapping
from scalar name to a type-erased value. -/
structure scalar_input_arguments_t where
  typed : List (String × any_value)
deriving DecidableEq, Repr

/-- Three-dimensional launch geometry extents. -/
structure dims3 where
  x : Nat
  y : Nat
  z : Nat
deriving DecidableEq, Repr

/-- `optional_launch_config_components` (from `launch_configuration.hpp`,
absent from the sources). Modelled from the spec: a set of independently
optional geometry components — grid extents, block/work-group extents,
dynamic shared-memory size. -/
structure optional_launch_config_components where
  grid_dimensions : Option dims3
  block_dimensions : Option dims3
  dynamic_shared_memory_size : Option Nat
deriving DecidableEq, Repr

/-- Modelled from the spec: a configuration is sufficient only when every
component required to launch is present; the geometry components (grid and
block extents) are required, dynamic shared-memory size has a default. -/
def optional_launch_config_components.is_sufficient
    (c : optional_launch_config_components) : Bool :=
  c.grid_dimensions.isSome && c.block_dimensions.isSome

/-- The slice of `kernel_inspecific_cmdline_options_t`
(`kernel_inspecific_cmdline_options.hpp`) the embedded operations consult. -/
structure parsed_inspecific_options_t where
  forced_launch_config_components : optional_launch_config_components
deriving DecidableEq, Repr

/-- `execution_context_t` (from `execution_context.hpp`, absent from the
sources). Modelled from the spec: the ecosystem tag, the device-side buffer
maps, the type-erased scalar map, and the parsed options with any forced
launch-configuration components — the members `kernel_adapter.hpp` reads. -/
structure execution_context_t where
  ecosystem : execution_ecosystem_t
  buffers : buffers_t
  scalar_input_arguments : scalar_input_arguments_t
  parsed_inspecific_options : parsed_inspecific_options_t
deriving DecidableEq, Repr

/-- The fatal conditions the marshaling helpers can raise: `std::map::at`
throwing on a missing buffer or scalar name, and `any_cast` throwing on a
dynamic-type mismatch. -/
inductive marshal_error where
  | buffer_not_found (name : String)
  | scalar_not_found (name : String)
  | scalar_type_mismatch (name : String)
deriving DecidableEq, Repr

/-- `sizeof(cl::Buffer)`: an opaque machine constant. -/
def sizeof_cl_Buffer : Nat := 8

/-- `kernel_adapters::push_back_buffer` (kernel_adapter.hpp:252-269):
selects the device-side input map for direction In and the output map
otherwise (outputs are used for inout buffers as well), looks the buffer name
up, and appends the address of the found handle to the pointer sequence;
under OpenCL it additionally appends `sizeof(cl::Buffer)` to the size
sequence. A missing name is the `at` throw, i.e. a buffer-not-found error. -/
def push_back_buffer (argument_ptrs : marshalled_arguments_type)
    (context : execution_context_t) (dir : parameter_direction_t)
    (buffer_argument_name : String) :
    Except marshal_error marshalled_arguments_type :=
  let buffer_map := if dir = parameter_direction_t.inDir
    then context.buffers.device_side.inputs
    else context.buffers.device_side.outputs
  if context.ecosystem = execution_ecosystem_t.cuda then
    match buffer_map.lookup buffer_argument_name with
    | none => Except.error (marshal_error.buffer_not_found buffer_argument_name)
    | some buf => Except.ok
        { argument_ptrs with
          pointers := argument_ptrs.pointers
            ++ [some (kernel_arg_ptr.cuda_buffer_data buf)] }
  else
    match buffer_map.lookup buffer_argument_name with
    | none => Except.error (marshal_error.buffer_not_found buffer_argument_name)
    | some buf => Except.ok
        { pointers := argument_ptrs.pointers
            ++ [some (kernel_arg_ptr.opencl_buffer buf)]
          sizes := argument_ptrs.sizes ++ [sizeof_cl_Buffer] }

/-- `kernel_adapters::push_back_scalar<Scalar>` (kernel_adapter.hpp:271-281):
looks the scalar name up in the type-erased map (`at` throws when absent),
extracts it at the expected static type (`any_cast` throws on a dynamic-type
mismatch), appends the stored value's address to the pointer sequence, and
under OpenCL additionally appends `sizeof(Scalar)` to the size sequence. -/
def push_back_scalar (Scalar : scalar_type)
    (argument_ptrs : marshalled_arguments_type)
    (context : execution_context_t) (scalar_argument_name : String) :
    Except marshal_error marshalled_arguments_type :=
  match context.scalar_input_arguments.typed.lookup scalar_argument_name with
  | none => Except.error (marshal_error.scalar_not_found scalar_argument_name)
  | some a =>
    if a.type = Scalar then
      let with_ptr :=
        { argument_ptrs with
          pointers := argument_ptrs.pointers
            ++ [some (kernel_arg_ptr.scalar_addr scalar_argument_name a)] }
      if context.ecosystem = execution_ecosystem_t.opencl then
        Except.ok { with_ptr with sizes := with_ptr.sizes ++ [Scalar.size] }
      else
        Except.ok with_ptr
    else
      Except.error (marshal_error.scalar_type_mismatch scalar_argument_name)

/-- The type of an adapter's `marshal_kernel_arguments_inner` override: it
mutates the accumulator (modelled as state passing) and may throw one of the
marshaling errors. -/
def inner_hook_t : Type :=
  marshalled_arguments_type → execution_context_t →
    Except marshal_error marshalled_arguments_type

/-- `kernel_adapter::marshal_kernel_arguments` (kernel_adapter.hpp:209-219),
parameterized by the virtual inner hook: runs the inner hook on an empty
accumulator, then — for the CUDA ecosystem only — appends a null terminator
to the pointer sequence (a thrown inner error propagates). -/
def marshal_kernel_arguments (inner : inner_hook_t)
    (context : execution_context_t) :
    Except marshal_error marshalled_arguments_type :=
  match inner { pointers := [], sizes := [] } context with
  | Except.error e => Except.error e
  | Except.ok argument_ptrs_and_maybe_sizes =>
    if context.ecosystem = execution_ecosystem_t.cuda then
      Except.ok
        { argument_ptrs_and_maybe_sizes with
          pointers := argument_ptrs_and_maybe_sizes.pointers ++ [none] }
    else
      Except.ok argument_ptrs_and_maybe_sizes

/-- One call a concrete adapter's `marshal_kernel_arguments_inner` makes to
the marshaling helpers: either `push_back_buffer` or `push_back_scalar`. -/
inductive arg_push_op where
  | buffer (dir : parameter_direction_t) (name : String)
  | scalar (t : scalar_type) (name : String)
deriving DecidableEq, Repr

/-- Run one push operation on the accumulator. -/
def run_push_op (op : arg_push_op) (args : marshalled_arguments_type)
    (context : execution_context_t) :
    Except marshal_error marshalled_arguments_type :=
  match op with
  | arg_push_op.buffer dir name => push_back_buffer args context dir name
  | arg_push_op.scalar t name => push_back_scalar t args context name

/-- Run a sequence of push operations, stopping at the first error — the
behavior of an inner hook that is a straight-line sequence of
`push_back_buffer` / `push_back_scalar` calls. -/
def run_push_ops (ops : List arg_push_op) (args : marshalled_arguments_type)
    (context : execution_context_t) :
    Except marshal_error marshalled_arguments_type :=
  match ops with
  | [] => Except.ok args
  | op :: rest =>
    match run_push_op op args context with
    | Except.error e => Except.error e
    | Except.ok args2 => run_push_ops rest args2 context

/-- The inner hook of an adapter whose `marshal_kernel_arguments_inner` is a
sequence of `push_back_buffer` / `push_back_scalar` calls. -/
def inner_of_ops (ops : List arg_push_op) : inner_hook_t :=
  fun args context => run_push_ops ops args context

/-- `kernel_adapter::deduce_launch_config`'s default implementation
(kernel_adapter.hpp:221-226): unconditionally throws "unable to deduce". -/
def deduce_launch_config_default (_context : execution_context_t) :
    Except String optional_launch_config_components :=
  Except.error
    "Unable to deduce launch configuration - please specify all launch configuration components explicitly using the command-line"

/-- `kernel_adapter::make_launch_config` (kernel_adapter.hpp:228-234),
parameterized by the adapter's virtual `deduce_launch_config`: if the forced
components are sufficient, return them; otherwise return the deduction's
result (or propagate its failure). -/
def make_launch_config
    (deduce : execution_context_t → Except String optional_launch_config_components)
    (context : execution_context_t) :
    Except String optional_launch_config_components :=
  let forced := context.parsed_inspecific_options.forced_launch_config_components
  if forced.is_sufficient then
    Except.ok forced
  else
    deduce context

/-- `kernel_adapter::single_buffer_details` (kernel_adapter.hpp:76-81). -/
structure single_buffer_details where
  name : String
  direction : parameter_direction_t
  description : String
deriving DecidableEq, Repr

/-- `parameter_name_set` (declared in `common_types.hpp`, absent from the
sources). Modelled from the spec: a set of parameter names. -/
abbrev parameter_name_set : Type := Finset String

/-- `kernel_adapter::buffer_names_from_details` (kernel_adapter.hpp:141-150):
inserts the name of every listed buffer into a name set. -/
def buffer_names_from_details (bds : List single_buffer_details) :
    parameter_name_set :=
  (bds.map (fun details => details.name)).toFinset

/-- `kernel_adapter::buffer_names` (kernel_adapter.hpp:153-158), with the
adapter represented by its declared buffer details: filters the declared
buffer details to the requested direction and collects their names. -/
def buffer_names (buffer_details : List single_buffer_details)
    (direction : parameter_direction_t) : parameter_name_set :=
  buffer_names_from_details
    (buffer_details.filter (fun sbd => sbd.direction = direction))

/-- The free function `buffer_names(adapter, dir_1, dir_2)`
(kernel_adapter.hpp:285-288): the union of the two per-direction name sets
(`util::union_` is from a header absent from the sources; modelled from the
spec as set union). -/
def buffer_names_pair (buffer_details : List single_buffer_details)
    (dir_1 dir_2 : parameter_direction_t) : parameter_name_set :=
  (buffer_names buffer_details dir_1) ∪ (buffer_names buffer_details dir_2)

/-- The accumulator extension `push_back_buffer` performs on success: the
address of the found handle is appended to the pointer sequence, and under
OpenCL the handle's byte size is appended to the size sequence. -/
def append_buffer_arg (args : marshalled_arguments_type)
    (eco : execution_ecosystem_t) (buf : device_buffer_t) :
    marshalled_arguments_type :=
  match eco with
  | execution_ecosystem_t.cuda =>
    { args with
      pointers := args.pointers ++ [some (kernel_arg_ptr.cuda_buffer_data buf)] }
  | execution_ecosystem_t.opencl =>
    { pointers := args.pointers ++ [some (kernel_arg_ptr.opencl_buffer buf)]
      sizes := args.sizes ++ [sizeof_cl_Buffer] }

/-- An empty forced launch configuration: no component supplied. -/
def no_forced_components : optional_launch_config_components :=
  { grid_dimensions := none
    block_dimensions := none
    dynamic_shared_memory_size := none }

/-- A concrete CUDA execution context with one bound input buffer `a`,
no bound output buffers, one `u32` scalar `n`, and no forced launch
configuration components. -/
def cuda_context_1 : execution_context_t :=
  { ecosystem := execution_ecosystem_t.cuda
    buffers := { device_side := { inputs := [("a", { id := 1 })], outputs := [] } }
    scalar_input_arguments := { typed := [("n", { type := scalar_type.u32, raw := 7 })] }
    parsed_inspecific_options :=
      { forced_launch_config_components := no_forced_components } }

/-- A concrete OpenCL execution context with input buffer `a`, output
buffer `b`, and one `u32` scalar `n`. -/
def opencl_context_1 : execution_context_t :=
  { ecosystem := execution_ecosystem_t.opencl
    buffers := { device_side :=
      { inputs := [("a", { id := 1 })], outputs := [("b", { id := 2 })] } }
    scalar_input_arguments := { typed := [("n", { type := scalar_type.u32, raw := 7 })] }
    parsed_inspecific_options :=
      { forced_launch_config_components := no_forced_components } }

/-- C1. For every CUDA execution context and every adapter inner hook, a
successful `marshal_kernel_arguments` yields exactly the inner hook's pointer
sequence with a single null sentinel appended after it, so the last element
of the result's pointer sequence is the null sentinel — regardless of how
many arguments (including zero) the inner hook pushed. -/
theorem marshal_kernel_arguments_cuda_null_terminated
    (inner : inner_hook_t) (context : execution_context_t)
    (r : marshalled_arguments_type)
    (heco : context.ecosystem = execution_ecosystem_t.cuda)
    (hok : marshal_kernel_arguments inner context = Except.ok r) :
    (∃ inner_result,
      inner { pointers := [], sizes := [] } context = Except.ok inner_result ∧
      r.pointers = inner_result.pointers ++ [none]) ∧
    r.pointers.getLast? = some none := by
  unfold marshal_kernel_arguments at hok
  cases hinner : inner { pointers := [], sizes := [] } context with
  | error e =>
    rw [hinner] at hok
    exact absurd hok (by simp)
  | ok inner_result =>
    rw [hinner, heco] at hok
    simp at hok
    subst hok
    refine ⟨⟨inner_result, rfl, rfl⟩, ?_⟩
    simp

/-- Witness for C1 at a concrete CUDA context and the empty inner hook. -/
theorem marshal_kernel_arguments_cuda_null_terminated_witness :
    (∃ inner_result,
      inner_of_ops [] { pointers := [], sizes := [] } cuda_context_1 =
        Except.ok inner_result ∧
      ({ pointers := [none], sizes := [] } :
          marshalled_arguments_type).pointers = inner_result.pointers ++ [none]) ∧
    ({ pointers := [none], sizes := [] } :
        marshalled_arguments_type).pointers.getLast? = some none :=
  marshal_kernel_arguments_cuda_null_terminated (inner_of_ops []) cuda_context_1
    { pointers := [none], sizes := [] } rfl rfl

/-- C3. When the user-forced launch-configuration components are sufficient,
`make_launch_config` returns the forced configuration verbatim, and the
result does not depend on the adapter's `deduce_launch_config` hook at all
(so the hook is never invoked). -/
theorem make_launch_config_sufficient_skips_deduction
    (deduce : execution_context_t → Except String optional_launch_config_components)
    (context : execution_context_t)
    (hsuff : (context.parsed_inspecific_options.forced_launch_config_components).is_sufficient
      = true) :
    make_launch_config deduce context =
      Except.ok context.parsed_inspecific_options.forced_launch_config_components ∧
    ∀ deduce2, make_launch_config deduce2 context = make_launch_config deduce context := by
  constructor
  · simp [make_launch_config, hsuff]
  · intro deduce2
    simp [make_launch_config, hsuff]

/-- A forced launch configuration with every required component present. -/
def sufficient_forced : optional_launch_config_components :=
  { grid_dimensions := some { x := 32, y := 1, z := 1 }
    block_dimensions := some { x := 128, y := 1, z := 1 }
    dynamic_shared_memory_size := none }

/-- A concrete CUDA context whose forced launch configuration is sufficient. -/
def cuda_context_forced : execution_context_t :=
  { ecosystem := execution_ecosystem_t.cuda
    buffers := { device_side := { inputs := [], outputs := [] } }
    scalar_input_arguments := { typed := [] }
    parsed_inspecific_options :=
      { forced_launch_config_components := sufficient_forced } }

/-- Witness for C3 at a concrete context with a sufficient forced
configuration, against the default (always-failing) deduction hook. -/
theorem make_launch_config_sufficient_skips_deduction_witness :
    make_launch_config deduce_launch_config_default cuda_context_forced =
      Except.ok cuda_context_forced.parsed_inspecific_options.forced_launch_config_components ∧
    ∀ deduce2, make_launch_config deduce2 cuda_context_forced =
      make_launch_config deduce_launch_config_default cuda_context_forced :=
  make_launch_config_sufficient_skips_deduction deduce_launch_config_default
    cuda_context_forced rfl

/-- C4. When the forced launch-configuration components are not sufficient,
an adapter that keeps the default `deduce_launch_config` makes
`make_launch_config` fail with the "unable to deduce" condition; and for any
adapter whose deduction fails, the failure propagates — no configuration is
returned and there is no fallback. -/
theorem make_launch_config_insufficient_fails
    (context : execution_context_t)
    (hinsuff : (context.parsed_inspecific_options.forced_launch_config_components).is_sufficient
      = false) :
    make_launch_config deduce_launch_config_default context =
      Except.error
        "Unable to deduce launch configuration - please specify all launch configuration components explicitly using the command-line" ∧
    ∀ (deduce : execution_context_t → Except String optional_launch_config_components)
      (e : String), deduce context = Except.error e →
        make_launch_config deduce context = Except.error e := by
  constructor
  · simp [make_launch_config, hinsuff, deduce_launch_config_default]
  · intro deduce e hfail
    simp [make_launch_config, hinsuff, hfail]

/-- Witness for C4 at a concrete context with no forced components. -/
theorem make_launch_config_insufficient_fails_witness :
    make_launch_config deduce_launch_config_default cuda_context_1 =
      Except.error
        "Unable to deduce launch configuration - please specify all launch configuration components explicitly using the command-line" ∧
    ∀ (deduce : execution_context_t → Except String optional_launch_config_components)
      (e : String), deduce cuda_context_1 = Except.error e →
        make_launch_config deduce cuda_context_1 = Except.error e :=
  make_launch_config_insufficient_fails cuda_context_1 rfl

/-- A forced launch configuration specifying only the block size. -/
def forced_block_only : optional_launch_config_components :=
  { grid_dimensions := none
    block_dimensions := some { x := 128, y := 1, z := 1 }
    dynamic_shared_memory_size := none }

/-- A concrete context whose forced launch configuration specifies only the
block size (and is therefore not sufficient). -/
def cuda_context_block_only : execution_context_t :=
  { ecosystem := execution_ecosystem_t.cuda
    buffers := { device_side := { inputs := [], outputs := [] } }
    scalar_input_arguments := { typed := [] }
    parsed_inspecific_options :=
      { forced_launch_config_components := forced_block_only } }

/-- A deduction hook that supplies the components the forced configuration
here lacks (grid dimensions and shared-memory size) together with its own
block size, deduced from context alone. -/
def deduce_full_config (_context : execution_context_t) :
    Except String optional_launch_config_components :=
  Except.ok
    { grid_dimensions := some { x := 32, y := 1, z := 1 }
      block_dimensions := some { x := 256, y := 1, z := 1 }
      dynamic_shared_memory_size := some 0 }

/-- Counterexample to C5: with a forced configuration specifying only the
block size (128) and an adapter whose deduction supplies the remaining
components, `make_launch_config` returns the deduced configuration verbatim —
its block-size component is the deduced 256, not the user-forced 128, so the
result does not contain the user-forced value for that component. -/
theorem make_launch_config_no_merge_counterexample :
    make_launch_config deduce_full_config cuda_context_block_only =
      Except.ok
        { grid_dimensions := some { x := 32, y := 1, z := 1 }
          block_dimensions := some { x := 256, y := 1, z := 1 }
          dynamic_shared_memory_size := some 0 } ∧
    (cuda_context_block_only.parsed_inspecific_options.forced_launch_config_components).block_dimensions
      = some { x := 128, y := 1, z := 1 } ∧
    some { x := 256, y := 1, z := 1 } ≠ (some { x := 128, y := 1, z := 1 } : Option dims3) :=
  ⟨rfl, rfl, by decide⟩

/-- C5 as amended: when the forced launch-configuration components are not
sufficient, `make_launch_config` performs no component-by-component merge —
it returns the adapter's deduced configuration verbatim (the deduction hook
receives the whole context and could itself consult the forced components,
but `make_launch_config` does not combine them). -/
theorem make_launch_config_insufficient_returns_deduction
    (deduce : execution_context_t → Except String optional_launch_config_components)
    (context : execution_context_t)
    (hinsuff : (context.parsed_inspecific_options.forced_launch_config_components).is_sufficient
      = false) :
    make_launch_config deduce context = deduce context := by
  simp [make_launch_config, hinsuff]

/-- Witness for the amended C5 at the block-only forced configuration. -/
theorem make_launch_config_insufficient_returns_deduction_witness :
    make_launch_config deduce_full_config cuda_context_block_only =
      deduce_full_config cuda_context_block_only :=
  make_launch_config_insufficient_returns_deduction deduce_full_config
    cuda_context_block_only rfl

/-- C6. `push_back_buffer` with direction In looks the buffer name up in the
context's device-side input buffer map, while directions Out and InOut look
it up in the device-side output buffer map; on success it appends the address
of the found handle to the pointer sequence (and, under OpenCL, the handle
byte size to the size sequence). -/
theorem push_back_buffer_direction_selects_map
    (args : marshalled_arguments_type) (context : execution_context_t)
    (name : String) (buf : device_buffer_t) :
    (context.buffers.device_side.inputs.lookup name = some buf →
      push_back_buffer args context parameter_direction_t.inDir name =
        Except.ok (append_buffer_arg args context.ecosystem buf)) ∧
    (context.buffers.device_side.outputs.lookup name = some buf →
      push_back_buffer args context parameter_direction_t.outDir name =
        Except.ok (append_buffer_arg args context.ecosystem buf) ∧
      push_back_buffer args context parameter_direction_t.inoutDir name =
        Except.ok (append_buffer_arg args context.ecosystem buf)) := by
  cases heco : context.ecosystem <;>
    exact ⟨fun hin => by simp [push_back_buffer, heco, hin, append_buffer_arg],
      fun hout => ⟨by simp [push_back_buffer, heco, hout, append_buffer_arg],
        by simp [push_back_buffer, heco, hout, append_buffer_arg]⟩⟩

/-- Witness for C6, with every direction arm exercised on a satisfied lookup
hypothesis: `a` is found in the input map of the CUDA context (direction In),
and `b` is found in the output map of the OpenCL context (directions Out and
InOut), each push succeeding with the found handle's address appended. -/
theorem push_back_buffer_direction_selects_map_witness :
    push_back_buffer { pointers := [], sizes := [] } cuda_context_1
        parameter_direction_t.inDir "a" =
      Except.ok (append_buffer_arg { pointers := [], sizes := [] }
        cuda_context_1.ecosystem { id := 1 }) ∧
    push_back_buffer { pointers := [], sizes := [] } opencl_context_1
        parameter_direction_t.outDir "b" =
      Except.ok (append_buffer_arg { pointers := [], sizes := [] }
        opencl_context_1.ecosystem { id := 2 }) ∧
    push_back_buffer { pointers := [], sizes := [] } opencl_context_1
        parameter_direction_t.inoutDir "b" =
      Except.ok (append_buffer_arg { pointers := [], sizes := [] }
        opencl_context_1.ecosystem { id := 2 }) :=
  ⟨(push_back_buffer_direction_selects_map { pointers := [], sizes := [] }
      cuda_context_1 "a" { id := 1 }).1 rfl,
   (push_back_buffer_direction_selects_map { pointers := [], sizes := [] }
      opencl_context_1 "b" { id := 2 }).2 rfl⟩

/-- C7. When the buffer name is absent from the map selected by the given
direction (the input map for In, the output map for Out and InOut),
`push_back_buffer` fails with the buffer-not-found condition and appends
nothing. -/
theorem push_back_buffer_missing_name_fails
    (args : marshalled_arguments_type) (context : execution_context_t)
    (name : String) :
    (context.buffers.device_side.inputs.lookup name = none →
      push_back_buffer args context parameter_direction_t.inDir name =
        Except.error (marshal_error.buffer_not_found name)) ∧
    (context.buffers.device_side.outputs.lookup name = none →
      push_back_buffer args context parameter_direction_t.outDir name =
        Except.error (marshal_error.buffer_not_found name) ∧
      push_back_buffer args context parameter_direction_t.inoutDir name =
        Except.error (marshal_error.buffer_not_found name)) := by
  cases heco : context.ecosystem <;>
    exact ⟨fun hin => by simp [push_back_buffer, heco, hin],
      fun hout => ⟨by simp [push_back_buffer, heco, hout],
        by simp [push_back_buffer, heco, hout]⟩⟩

/-- Witness for C7, realizing the spec's scenario: the adapter declares
buffers a (In) and b (Out); the context has only `a` bound (in the input
map), and pushing the not-yet-bound output buffer `b` fails with
buffer-not-found. -/
theorem push_back_buffer_missing_name_fails_witness :
    (cuda_context_1.buffers.device_side.inputs.lookup "b" = none →
      push_back_buffer { pointers := [], sizes := [] } cuda_context_1
          parameter_direction_t.inDir "b" =
        Except.error (marshal_error.buffer_not_found "b")) ∧
    (cuda_context_1.buffers.device_side.outputs.lookup "b" = none →
      push_back_buffer { pointers := [], sizes := [] } cuda_context_1
          parameter_direction_t.outDir "b" =
        Except.error (marshal_error.buffer_not_found "b") ∧
      push_back_buffer { pointers := [], sizes := [] } cuda_context_1
          parameter_direction_t.inoutDir "b" =
        Except.error (marshal_error.buffer_not_found "b")) :=
  push_back_buffer_missing_name_fails { pointers := [], sizes := [] }
    cuda_context_1 "b"

/-- C8. `push_back_scalar` at expected static type `Scalar` fails with the
not-found condition when the name is absent from the type-erased scalar map,
fails with the type-mismatch condition when the stored value's dynamic type
differs from `Scalar`, and otherwise appends the stored value's address to
the pointer sequence (plus, under OpenCL only, `sizeof(Scalar)` to the size
sequence). -/
theorem push_back_scalar_type_checked
    (Scalar : scalar_type) (args : marshalled_arguments_type)
    (context : execution_context_t) (name : String) :
    (context.scalar_input_arguments.typed.lookup name = none →
      push_back_scalar Scalar args context name =
        Except.error (marshal_error.scalar_not_found name)) ∧
    (∀ a, context.scalar_input_arguments.typed.lookup name = some a →
      (a.type ≠ Scalar →
        push_back_scalar Scalar args context name =
          Except.error (marshal_error.scalar_type_mismatch name)) ∧
      (a.type = Scalar →
        push_back_scalar Scalar args context name = Except.ok
          { pointers := args.pointers ++ [some (kernel_arg_ptr.scalar_addr name a)]
            sizes := args.sizes ++
              (if context.ecosystem = execution_ecosystem_t.opencl
                then [Scalar.size] else []) })) := by
  refine ⟨fun habsent => ?_, fun a hfound => ⟨fun hne => ?_, fun heq => ?_⟩⟩
  · simp [push_back_scalar, habsent]
  · simp [push_back_scalar, hfound, hne]
  · cases heco : context.ecosystem <;>
      simp [push_back_scalar, hfound, heq, heco]

/-- Witness for C8, with each of the three cases exercised on satisfied
hypotheses at the concrete OpenCL context holding scalar `n` of dynamic type
`u32`: name `m` is absent (not-found failure), name `n` looked up at
expected type `i64` mismatches the stored `u32` (type-mismatch failure), and
name `n` looked up at expected type `u32` succeeds with the stored value's
address and `sizeof(u32)` appended. -/
theorem push_back_scalar_type_checked_witness :
    push_back_scalar scalar_type.u32 { pointers := [], sizes := [] }
        opencl_context_1 "m" =
      Except.error (marshal_error.scalar_not_found "m") ∧
    push_back_scalar scalar_type.i64 { pointers := [], sizes := [] }
        opencl_context_1 "n" =
      Except.error (marshal_error.scalar_type_mismatch "n") ∧
    push_back_scalar scalar_type.u32 { pointers := [], sizes := [] }
        opencl_context_1 "n" = Except.ok
      { pointers := [] ++ [some (kernel_arg_ptr.scalar_addr "n"
          { type := scalar_type.u32, raw := 7 })]
        sizes := [] ++
          (if opencl_context_1.ecosystem = execution_ecosystem_t.opencl
            then [(scalar_type.u32).size] else []) } :=
  ⟨(push_back_scalar_type_checked scalar_type.u32 { pointers := [], sizes := [] }
      opencl_context_1 "m").1 rfl,
   ((push_back_scalar_type_checked scalar_type.i64 { pointers := [], sizes := [] }
      opencl_context_1 "n").2 { type := scalar_type.u32, raw := 7 } rfl).1
     (by decide),
   ((push_back_scalar_type_checked scalar_type.u32 { pointers := [], sizes := [] }
      opencl_context_1 "n").2 { type := scalar_type.u32, raw := 7 } rfl).2 rfl⟩

/-- C10. Under the CUDA ecosystem, a successful `push_back_buffer` or
`push_back_scalar` leaves the size sequence of the accumulator completely
unchanged, and grows the pointer sequence by exactly one element. -/
theorem cuda_pushes_frame_sizes
    (args : marshalled_arguments_type) (context : execution_context_t)
    (heco : context.ecosystem = execution_ecosystem_t.cuda) :
    (∀ dir name r, push_back_buffer args context dir name = Except.ok r →
      r.sizes = args.sizes ∧ ∃ p, r.pointers = args.pointers ++ [p]) ∧
    (∀ Scalar name r, push_back_scalar Scalar args context name = Except.ok r →
      r.sizes = args.sizes ∧ ∃ p, r.pointers = args.pointers ++ [p]) := by
  constructor
  · intro dir name r hok
    unfold push_back_buffer at hok
    rw [heco] at hok
    cases hlook : (if dir = parameter_direction_t.inDir
        then context.buffers.device_side.inputs
        else context.buffers.device_side.outputs).lookup name with
    | none => simp [hlook] at hok
    | some buf =>
      simp [hlook] at hok
      subst hok
      exact ⟨rfl, ⟨_, rfl⟩⟩
  · intro Scalar name r hok
    unfold push_back_scalar at hok
    cases hlook : context.scalar_input_arguments.typed.lookup name with
    | none => rw [hlook] at hok; simp at hok
    | some a =>
      rw [hlook] at hok
      by_cases hty : a.type = Scalar
      · simp [hty, heco] at hok
        subst hok
        exact ⟨rfl, ⟨_, rfl⟩⟩
      · simp [hty] at hok

/-- Witness for C10 at the concrete CUDA context: pushing input buffer `a`
and scalar `n` each leave `sizes` unchanged and append one pointer. -/
theorem cuda_pushes_frame_sizes_witness :
    (∀ dir name r,
      push_back_buffer { pointers := [], sizes := [] } cuda_context_1 dir name =
          Except.ok r →
        r.sizes = ({ pointers := [], sizes := [] } :
            marshalled_arguments_type).sizes ∧
        ∃ p, r.pointers = ({ pointers := [], sizes := [] } :
            marshalled_arguments_type).pointers ++ [p]) ∧
    (∀ Scalar name r,
      push_back_scalar Scalar { pointers := [], sizes := [] } cuda_context_1 name =
          Except.ok r →
        r.sizes = ({ pointers := [], sizes := [] } :
            marshalled_arguments_type).sizes ∧
        ∃ p, r.pointers = ({ pointers := [], sizes := [] } :
            marshalled_arguments_type).pointers ++ [p]) :=
  cuda_pushes_frame_sizes { pointers := [], sizes := [] } cuda_context_1 rfl

/-- Helper: in an OpenCL context, each successful marshaling push keeps the
pointer and size sequences equally long and never appends a null pointer
slot. -/
theorem push_op_opencl_preserves
    (op : arg_push_op) (args r : marshalled_arguments_type)
    (context : execution_context_t)
    (heco : context.ecosystem = execution_ecosystem_t.opencl)
    (hok : run_push_op op args context = Except.ok r)
    (h : args.pointers.length = args.sizes.length ∧ ∀ p ∈ args.pointers, p ≠ none) :
    r.pointers.length = r.sizes.length ∧ ∀ p ∈ r.pointers, p ≠ none := by
  obtain ⟨hlen, hnn⟩ := h
  cases op with
  | buffer dir name =>
    unfold run_push_op push_back_buffer at hok
    rw [heco] at hok
    cases hlook : List.lookup name (if dir = parameter_direction_t.inDir
        then context.buffers.device_side.inputs
        else context.buffers.device_side.outputs) with
    | none => simp [hlook] at hok
    | some buf =>
      simp [hlook] at hok
      subst hok
      refine ⟨by simp [hlen], fun p hp => ?_⟩
      rcases List.mem_append.mp hp with h1 | h1
      · exact hnn p h1
      · simp at h1
        subst h1
        simp
  | scalar t name =>
    unfold run_push_op push_back_scalar at hok
    cases hlook : List.lookup name context.scalar_input_arguments.typed with
    | none => simp [hlook] at hok
    | some a =>
      by_cases hty : a.type = t
      · simp [hlook, hty, heco] at hok
        subst hok
        refine ⟨by simp [hlen], fun p hp => ?_⟩
        rcases List.mem_append.mp hp with h1 | h1
        · exact hnn p h1
        · simp at h1
          subst h1
          simp
      · simp [hlook, hty] at hok

/-- Helper: the single-push invariant extends over any sequence of pushes. -/
theorem run_push_ops_opencl_invariant
    (ops : List arg_push_op) (args r : marshalled_arguments_type)
    (context : execution_context_t)
    (heco : context.ecosystem = execution_ecosystem_t.opencl)
    (hok : run_push_ops ops args context = Except.ok r)
    (h : args.pointers.length = args.sizes.length ∧ ∀ p ∈ args.pointers, p ≠ none) :
    r.pointers.length = r.sizes.length ∧ ∀ p ∈ r.pointers, p ≠ none := by
  induction ops generalizing args with
  | nil =>
    unfold run_push_ops at hok
    simp at hok
    subst hok
    exact h
  | cons op rest ih =>
    unfold run_push_ops at hok
    cases hop : run_push_op op args context with
    | error e => rw [hop] at hok; simp at hok
    | ok args2 =>
      rw [hop] at hok
      exact ih args2 hok (push_op_opencl_preserves op args args2 context heco hop h)

/-- C2. For every OpenCL execution context and every adapter whose inner hook
is a sequence of `push_back_buffer` / `push_back_scalar` calls, a successful
`marshal_kernel_arguments` returns exactly what the inner pushes accumulated
(no terminator of any kind is appended), its pointer and size sequences have
equal length, and no pointer slot is the null sentinel. -/
theorem marshal_kernel_arguments_opencl_balanced
    (ops : List arg_push_op) (context : execution_context_t)
    (r : marshalled_arguments_type)
    (heco : context.ecosystem = execution_ecosystem_t.opencl)
    (hok : marshal_kernel_arguments (inner_of_ops ops) context = Except.ok r) :
    marshal_kernel_arguments (inner_of_ops ops) context =
      run_push_ops ops { pointers := [], sizes := [] } context ∧
    r.pointers.length = r.sizes.length ∧
    ∀ p ∈ r.pointers, p ≠ none := by
  have hmarshal : marshal_kernel_arguments (inner_of_ops ops) context =
      run_push_ops ops { pointers := [], sizes := [] } context := by
    unfold marshal_kernel_arguments inner_of_ops
    cases hrun : run_push_ops ops { pointers := [], sizes := [] } context with
    | error e => simp [hrun]
    | ok args => simp [hrun, heco]
  refine ⟨hmarshal, ?_⟩
  rw [hmarshal] at hok
  exact run_push_ops_opencl_invariant ops { pointers := [], sizes := [] } r
    context heco hok ⟨rfl, by simp⟩

/-- The concrete push sequence of the C2 witness: input buffer `a`, then
scalar `n` at expected type `u32`. -/
def push_ops_example : List arg_push_op :=
  [arg_push_op.buffer parameter_direction_t.inDir "a",
   arg_push_op.scalar scalar_type.u32 "n"]

/-- The marshalled arguments those pushes accumulate in `opencl_context_1`. -/
def opencl_marshal_result : marshalled_arguments_type :=
  { pointers := [some (kernel_arg_ptr.opencl_buffer { id := 1 }),
      some (kernel_arg_ptr.scalar_addr "n" { type := scalar_type.u32, raw := 7 })]
    sizes := [sizeof_cl_Buffer, (scalar_type.u32).size] }

/-- Witness for C2 at the concrete OpenCL context: the inner hook pushes
input buffer `a` and scalar `n`; the result has two pointers and two sizes
and no null slot. -/
theorem marshal_kernel_arguments_opencl_balanced_witness :
    marshal_kernel_arguments (inner_of_ops push_ops_example) opencl_context_1 =
      run_push_ops push_ops_example { pointers := [], sizes := [] }
        opencl_context_1 ∧
    opencl_marshal_result.pointers.length = opencl_marshal_result.sizes.length ∧
    ∀ p ∈ opencl_marshal_result.pointers, p ≠ none :=
  marshal_kernel_arguments_opencl_balanced push_ops_example opencl_context_1
    opencl_marshal_result rfl rfl

/-- C9. For adapters whose declared buffer names are unique, the union
`buffer_names(d1) ∪ buffer_names(d2)` contains no duplicate names and is
exactly the set of declared names whose direction is d1 or d2. -/
theorem buffer_names_pair_union_exact
    (bds : List single_buffer_details) (d1 d2 : parameter_direction_t)
    (huniq : (bds.map (fun b => b.name)).Nodup) :
    ((bds.filter (fun b => b.direction = d1 ∨ b.direction = d2)).map
        (fun b => b.name)).Nodup ∧
    buffer_names_pair bds d1 d2 =
      ((bds.filter (fun b => b.direction = d1 ∨ b.direction = d2)).map
        (fun b => b.name)).toFinset := by
  constructor
  · exact huniq.sublist ((bds.filter_sublist).map (fun b => b.name))
  · ext x
    simp only [buffer_names_pair, buffer_names, buffer_names_from_details,
      Finset.mem_union, List.mem_toFinset, List.mem_map, List.mem_filter,
      decide_eq_true_eq]
    constructor
    · rintro (⟨b, ⟨hb, hdir⟩, hn⟩ | ⟨b, ⟨hb, hdir⟩, hn⟩)
      · exact ⟨b, ⟨hb, Or.inl hdir⟩, hn⟩
      · exact ⟨b, ⟨hb, Or.inr hdir⟩, hn⟩
    · rintro ⟨b, ⟨hb, hdir | hdir⟩, hn⟩
      · exact Or.inl ⟨b, ⟨hb, hdir⟩, hn⟩
      · exact Or.inr ⟨b, ⟨hb, hdir⟩, hn⟩

/-- A concrete three-buffer declaration (the adapter's declared buffer
details) with directions In, Out, InOut and pairwise-distinct names. -/
def buffer_details_example : List single_buffer_details :=
  [{ name := "a", direction := parameter_direction_t.inDir, description := "" },
   { name := "b", direction := parameter_direction_t.outDir, description := "" },
   { name := "c", direction := parameter_direction_t.inoutDir, description := "" }]

/-- Witness for C9 at the concrete three-buffer declaration and the
direction pair (In, Out). -/
theorem buffer_names_pair_union_exact_witness :
    ((buffer_details_example.filter
        (fun b => b.direction = parameter_direction_t.inDir ∨
          b.direction = parameter_direction_t.outDir)).map
      (fun b => b.name)).Nodup ∧
    buffer_names_pair buffer_details_example
        parameter_direction_t.inDir parameter_direction_t.outDir =
      ((buffer_details_example.filter
          (fun b => b.direction = parameter_direction_t.inDir ∨
            b.direction = parameter_direction_t.outDir)).map
        (fun b => b.name)).toFinset :=
  buffer_names_pair_union_exact buffer_details_example
    parameter_direction_t.inDir parameter_direction_t.outDir (by decide)
